import Mathlib

/-!
Shallow embedding of the LPG cylinder dashboard `src/lgas1.py`.

The program is a single Streamlit script.  The parts the claims are about:

* `load_data` (lines 8-27): reads the CSV, converts `Location_PIN` with
  `.astype(str).str.strip()`, parses the three date columns with
  `pd.to_datetime(..., errors='coerce')`, and on any read failure shows a
  diagnostic and returns an empty table.  The whole function is memoized by
  the `@st.cache_data` decorator.
* the Dashboard page (line 61): `df[df["Status"].isin(status_filter)]`.
* the Cylinder Finder page (lines 96-118): strips the PIN input, does
  nothing when the stripped input is empty, filters by exact PIN equality
  when it is 6 digits, warns otherwise; an optional status filter is
  applied only when the selection is non-empty (lines 100-101).
* the Simulate Refill page (lines 146-154): sets `Fill_Percent` and
  `Last_Fill_Date` on the rows whose `Cylinder_ID` matches, then writes the
  CSV; the `st.cache_data` memo of `load_data` is never cleared.
* the Add New Cylinder page (lines 179-201): validates the ID and PIN,
  rejects a duplicate `Cylinder_ID`, and otherwise appends a row whose
  `Next_Test_Due` is `last_test + 1827 days` and whose `Overdue` is
  `next_test < now`.

Timestamps are modelled as integers counting days, matching the day-level
granularity of every date in the script.  Python's `str.strip` and
`str.isdigit` are modelled by explicit character-list functions `pyStrip`
and `pyIsDigit` below (the script only ever deals in ASCII PINs).
-/

/-- Python's `str.strip()` with no argument: remove leading and trailing
whitespace. -/
def pyStrip (s : String) : String :=
  ⟨((s.data.dropWhile Char.isWhitespace).reverse.dropWhile Char.isWhitespace).reverse⟩

/-- Python's `str.isdigit()`: true when the string is non-empty and every
character is a digit. -/
def pyIsDigit (s : String) : Bool :=
  !s.data.isEmpty && s.data.all Char.isDigit

/-- A cleaned cylinder record, one row of the loaded table.  Date fields are
`Option Int` (days): `none` models pandas `NaT` from `errors='coerce'`. -/
structure CylinderRecord where
  Cylinder_ID : String
  Capacity_kg : Nat
  Fill_Percent : Nat
  Status : String
  Location_PIN : String
  Customer_Name : String
  Last_Fill_Date : Option Int
  Last_Test_Date : Option Int
  Next_Test_Due : Option Int
  Overdue : Bool
  deriving Repr, DecidableEq

/-- A raw `Location_PIN` cell as pandas delivers it before the script's
`.astype(str)`: the CSV column may have been inferred as integer, as float
(e.g. when the column contains a missing value), or kept as text. -/
inductive RawCell
  | ofInt (n : Int)
  | ofFloat (intPart : Int) (fracDigits : String)
  | ofStr (s : String)
  deriving Repr, DecidableEq

/-- Python's `str()` of such a cell value: an integer renders with no
decimal point, a float renders as `intPart.fracDigits` (so `500033.0`
renders as `"500033.0"`), a string renders as itself. -/
def pyStr : RawCell → String
  | .ofInt n => toString n
  | .ofFloat i f => toString i ++ "." ++ f
  | .ofStr s => s

/-- A raw date cell: either a value `pd.to_datetime` can parse, or not. -/
inductive DateCell
  | parsable (d : Int)
  | unparsable
  deriving Repr, DecidableEq

/-- `pd.to_datetime(x, errors='coerce')` on one cell: parse failures become
`NaT` (`none`), never an exception. -/
def toDatetimeCoerce : DateCell → Option Int
  | .parsable d => some d
  | .unparsable => none

/-- One raw CSV row before cleaning.  The CSV carries an `Overdue` column of
its own (the Dashboard reads `df["Overdue"]` and `load_data` never creates
that column, so it must come from the source). -/
structure RawRecord where
  Cylinder_ID : String
  Capacity_kg : Nat
  Fill_Percent : Nat
  Status : String
  Location_PIN : RawCell
  Customer_Name : String
  Last_Fill_Date : DateCell
  Last_Test_Date : DateCell
  Next_Test_Due : DateCell
  Overdue : Bool
  deriving Repr, DecidableEq

/-- The cleaning `load_data` applies to one row (lines 13-19):
`Location_PIN` becomes `str(x).strip()`, the three date columns go through
`pd.to_datetime(..., errors='coerce')`, everything else is carried through
unchanged — in particular the stored `Overdue` value. -/
def cleanRecord (r : RawRecord) : CylinderRecord :=
  { Cylinder_ID := r.Cylinder_ID
    Capacity_kg := r.Capacity_kg
    Fill_Percent := r.Fill_Percent
    Status := r.Status
    Location_PIN := pyStrip (pyStr r.Location_PIN)
    Customer_Name := r.Customer_Name
    Last_Fill_Date := toDatetimeCoerce r.Last_Fill_Date
    Last_Test_Date := toDatetimeCoerce r.Last_Test_Date
    Next_Test_Due := toDatetimeCoerce r.Next_Test_Due
    Overdue := r.Overdue }

/-- Outcome of the underlying `pd.read_csv` call. -/
inductive ReadError
  | fileNotFound
  | otherError (msg : String)
  deriving Repr, DecidableEq

/-- `load_data` (lines 9-27): on a successful read, clean every row and
return no diagnostic; on `FileNotFoundError` or any other exception, show a
diagnostic via `st.error` and return the empty table.  Both `except` arms
return normally, so no exception escapes the function. -/
def load_data (readResult : Except ReadError (List RawRecord)) :
    List CylinderRecord × Option String :=
  match readResult with
  | .ok rows => (rows.map cleanRecord, none)
  | .error .fileNotFound =>
      ([], some "CSV file not found in the repository root. Please upload to your GitHub repo.")
  | .error (.otherError m) => ([], some ("Error loading data: " ++ m))

/-- Line 197's derived flag for a new row: `next_test < pd.Timestamp.now()`,
a strict comparison. -/
def computeOverdue (nextTestDue now : Int) : Bool :=
  nextTestDue < now

/-- Line 186: `pd.Timestamp(last_test) + pd.Timedelta(days=1827)`. -/
def next_test (lastTestDate : Int) : Int :=
  lastTestDate + 1827

/-- Dashboard status filter, line 61:
`df[df["Status"].isin(status_filter)]`. -/
def dashboardFilter (df : List CylinderRecord) (statusFilter : List String) :
    List CylinderRecord :=
  df.filter (fun r => statusFilter.contains r.Status)

/-- What the Cylinder Finder page does with a PIN input. -/
inductive FinderOutcome
  | noQuery
  | invalidPin
  | results (rows : List CylinderRecord)
  deriving Repr, DecidableEq

/-- Cylinder Finder page, lines 86-118.  The input is stripped (line 86);
an empty stripped input runs no query at all (`if pin_input:`); a stripped
input of exactly 6 digits selects the rows with `Location_PIN` exactly
equal to it, then restricts by status only when the selection is non-empty
(lines 100-101); anything else gets the "Enter a valid 6-digit PIN"
warning. -/
def cylinderFinder (df : List CylinderRecord) (rawPin : String)
    (selectedStatuses : List String) : FinderOutcome :=
  let pin_input := pyStrip rawPin
  if pin_input = "" then .noQuery
  else if pin_input.length = 6 ∧ pyIsDigit pin_input then
    let results := df.filter (fun r => r.Location_PIN = pin_input)
    let results :=
      if selectedStatuses.isEmpty then results
      else results.filter (fun r => selectedStatuses.contains r.Status)
    .results results
  else .invalidPin

/-- Simulate Refill, lines 147-148: set `Fill_Percent` and `Last_Fill_Date`
on every row whose `Cylinder_ID` matches; no other column is assigned. -/
def simulateRefill (df : List CylinderRecord) (cylinderId : String)
    (newFill : Nat) (now : Int) : List CylinderRecord :=
  df.map fun r =>
    if r.Cylinder_ID = cylinderId then
      { r with Fill_Percent := newFill, Last_Fill_Date := some now }
    else r

/-- Outcome of the Add New Cylinder form submission. -/
inductive AddOutcome
  | validationError
  | duplicateId
  | added
  deriving Repr, DecidableEq

/-- Add New Cylinder, lines 179-201.  Validation first (line 180): empty ID,
empty PIN, PIN length ≠ 6 or non-digit PIN is rejected.  Then the
duplicate check (line 182): `new_id in df["Cylinder_ID"].values`.
Otherwise the new row is built with `Next_Test_Due = last_test + 1827`
days and `Overdue = next_test < now`, and concatenated after the existing
rows (line 201).  The pair returned is (outcome, resulting table); on a
rejection the table is the input table. -/
def addNewCylinder (df : List CylinderRecord) (newId pinCode : String)
    (capacity fillPercent : Nat) (status customerName : String)
    (lastFill lastTest now : Int) : AddOutcome × List CylinderRecord :=
  if newId = "" ∨ pinCode = "" ∨ pinCode.length ≠ 6 ∨ ¬ pyIsDigit pinCode then
    (.validationError, df)
  else if (df.map (fun r => r.Cylinder_ID)).contains newId then
    (.duplicateId, df)
  else
    let nextTestDue := next_test lastTest
    (.added, df ++ [{ Cylinder_ID := newId
                      Capacity_kg := capacity
                      Fill_Percent := fillPercent
                      Status := status
                      Location_PIN := pinCode
                      Customer_Name := customerName
                      Last_Fill_Date := some lastFill
                      Last_Test_Date := some lastTest
                      Next_Test_Due := some nextTestDue
                      Overdue := computeOverdue nextTestDue now }])

/-- Process-wide state of the running script: the CSV file's (parsed)
contents and the `@st.cache_data` memo of `load_data`.  Records here are
already in cleaned form; the parsing details live in `load_data` above. -/
structure AppState where
  csvStore : List CylinderRecord
  cache : Option (List CylinderRecord)
  deriving Repr, DecidableEq

/-- The memoized `load_data` as the rest of the script sees it: a cache hit
returns the memoized table; a miss reads the store and caches it.  Nothing
in the script ever clears this cache. -/
def cachedLoadData (s : AppState) : List CylinderRecord × AppState :=
  match s.cache with
  | some t => (t, s)
  | none => (s.csvStore, { s with cache := some s.csvStore })

/-- One run of the script ending in a confirmed refill (lines 146-152):
`df = load_data()` at the top of the script, the two column assignments,
then `df.to_csv(...)` persisting the mutated table.  No line clears the
`st.cache_data` memo. -/
def confirmRefill (s : AppState) (cylinderId : String) (newFill : Nat)
    (now : Int) : AppState :=
  let loaded := cachedLoadData s
  let df2 := simulateRefill loaded.1 cylinderId newFill now
  { loaded.2 with csvStore := df2 }

/-! ## Concrete helper records for counterexamples and witnesses -/

/-- A neutral raw CSV row used to build concrete inputs. -/
def rawBase : RawRecord :=
  { Cylinder_ID := "LEO-1"
    Capacity_kg := 12
    Fill_Percent := 50
    Status := "Active"
    Location_PIN := .ofStr "500033"
    Customer_Name := ""
    Last_Fill_Date := .parsable 0
    Last_Test_Date := .parsable 0
    Next_Test_Due := .parsable 0
    Overdue := false }

/-- A concrete cleaned record used to build concrete tables. -/
def leoRecord : CylinderRecord :=
  { Cylinder_ID := "LEO-1"
    Capacity_kg := 12
    Fill_Percent := 40
    Status := "Full"
    Location_PIN := "500033"
    Customer_Name := ""
    Last_Fill_Date := none
    Last_Test_Date := none
    Next_Test_Due := some 1000
    Overdue := false }

/-! ## C3 -/

/-- C3 counterexample: `compute_next_test_due` does not add 1825 days; at
`last_test_date = 0` the result is 1827, not 1825. -/
theorem next_test_zero_ne_1825 : ¬ (next_test 0 = 0 + 1825) := by decide

/-- C3 (amended): `compute_next_test_due` applies one fixed offset
consistently — the offset is the same for all inputs — and that offset is
1827 days, i.e. the result is always `last_test_date + 1827`. -/
theorem next_test_fixed_offset :
    (∀ d e : Int, next_test d - d = next_test e - e) ∧
    (∀ d : Int, next_test d = d + 1827) := by
  constructor
  · intro d e
    simp [next_test]
  · intro d
    rfl

/-! ## C4 -/

/-- C4: the new-row `Overdue` flag is true iff `next_test_due < now`, and
at `next_test_due = now` it is false: the boundary is exclusive. -/
theorem computeOverdue_iff_lt (nextTestDue now : Int) :
    (computeOverdue nextTestDue now = true ↔ nextTestDue < now) ∧
    computeOverdue nextTestDue nextTestDue = false := by
  constructor
  · simp [computeOverdue]
  · simp [computeOverdue]

/-! ## C8 -/

/-- C8: when the store read fails — missing file or any other error —
`load_data` returns the empty table together with a diagnostic message.
(`load_data` is a total function of the read outcome: both Python `except`
arms return normally, so no exception escapes its boundary.) -/
theorem load_data_failure_empty (e : ReadError) :
    (load_data (.error e)).1 = [] ∧ (load_data (.error e)).2 ≠ none := by
  cases e <;> simp [load_data]

/-! ## C10 -/

/-- C10: the empty-status-set policy differs per page.  On the Dashboard an
empty allowed-status set keeps no rows (`isin` of an empty set is always
false); on the Cylinder Finder an empty status selection applies no status
restriction, so a valid PIN query returns every row whose `Location_PIN`
matches the trimmed input. -/
theorem empty_status_policies (df : List CylinderRecord) (pin : String)
    (hLen : (pyStrip pin).length = 6) (hDig : pyIsDigit (pyStrip pin) = true) :
    dashboardFilter df [] = [] ∧
    cylinderFinder df pin [] =
      .results (df.filter (fun r => r.Location_PIN = pyStrip pin)) := by
  have hne : pyStrip pin ≠ "" := by
    intro h
    rw [h] at hLen
    exact absurd hLen (by decide)
  constructor
  · simp [dashboardFilter]
  · simp [cylinderFinder, hne, hLen, hDig]

/-- C10 witness: concrete instance at PIN `"500033"` over a one-row table
whose record carries that PIN. -/
theorem empty_status_policies_witness :
    dashboardFilter [leoRecord] [] = [] ∧
    cylinderFinder [leoRecord] "500033" [] =
      .results (List.filter (fun r => r.Location_PIN = pyStrip "500033") [leoRecord]) :=
  empty_status_policies [leoRecord] "500033" (by decide) (by decide)

/-! ## C5 -/

/-- C5: submitting the Add New Cylinder form with a `Cylinder_ID` already
present in the table is rejected as a duplicate and the table comes back
unchanged — no row is appended, so the row count is unchanged.  (The form
checks field validity first, so the hypotheses say the ID is non-empty and
the PIN is a valid 6-digit string; with those in place a duplicate ID is
reported as `duplicateId`.) -/
theorem addNewCylinder_duplicate (df : List CylinderRecord)
    (newId pinCode : String) (capacity fillPercent : Nat)
    (status customerName : String) (lastFill lastTest now : Int)
    (hId : newId ≠ "") (hLen : pinCode.length = 6)
    (hDig : pyIsDigit pinCode = true)
    (hDup : (df.map (fun r => r.Cylinder_ID)).contains newId = true) :
    addNewCylinder df newId pinCode capacity fillPercent status customerName
        lastFill lastTest now = (.duplicateId, df) := by
  have hPin : pinCode ≠ "" := by
    intro h
    rw [h] at hLen
    exact absurd hLen (by decide)
  have hcond : ¬ (newId = "" ∨ pinCode = "" ∨ pinCode.length ≠ 6 ∨
      ¬ pyIsDigit pinCode = true) := by
    push_neg
    exact ⟨hId, hPin, hLen, hDig⟩
  simp only [addNewCylinder]
  rw [if_neg hcond, if_pos hDup]

/-- C5 witness: adding `"LEO-1"` with a valid PIN to a table that already
holds `"LEO-1"` yields the duplicate rejection with the table unchanged. -/
theorem addNewCylinder_duplicate_witness :
    addNewCylinder [leoRecord] "LEO-1" "500033" 12 80 "Full" "X" 0 0 100
      = (.duplicateId, [leoRecord]) :=
  addNewCylinder_duplicate [leoRecord] "LEO-1" "500033" 12 80 "Full" "X" 0 0 100
    (by decide) (by decide) (by decide) (by decide)

/-! ## C6 -/

/-- C6: a confirmed refill targeting the record at position `i` (whose
`Cylinder_ID` matches the selection) sets that record's `Fill_Percent` to
the new value and `Last_Fill_Date` to the call time, while its
`Next_Test_Due`, `Status` and `Cylinder_ID` are unchanged. -/
theorem simulateRefill_updates_target (df : List CylinderRecord)
    (cid : String) (newFill : Nat) (now : Int) (i : Nat) (r : CylinderRecord)
    (hi : df[i]? = some r) (hid : r.Cylinder_ID = cid) :
    ∃ r2, (simulateRefill df cid newFill now)[i]? = some r2 ∧
      r2.Fill_Percent = newFill ∧ r2.Last_Fill_Date = some now ∧
      r2.Next_Test_Due = r.Next_Test_Due ∧ r2.Status = r.Status ∧
      r2.Cylinder_ID = r.Cylinder_ID := by
  refine ⟨{ r with Fill_Percent := newFill, Last_Fill_Date := some now },
    ?_, rfl, rfl, rfl, rfl, rfl⟩
  simp [simulateRefill, hi, hid]

/-- C6 witness: refilling `"LEO-1"` (stored at index 0 with
`Fill_Percent = 40`) to 100 at time 500. -/
theorem simulateRefill_updates_target_witness :
    ∃ r2, (simulateRefill [leoRecord] "LEO-1" 100 500)[0]? = some r2 ∧
      r2.Fill_Percent = 100 ∧ r2.Last_Fill_Date = some 500 ∧
      r2.Next_Test_Due = leoRecord.Next_Test_Due ∧
      r2.Status = leoRecord.Status ∧ r2.Cylinder_ID = leoRecord.Cylinder_ID :=
  simulateRefill_updates_target [leoRecord] "LEO-1" 100 500 0 leoRecord
    (by decide) (by decide)

/-! ## C7 -/

/-- C7 counterexample: the empty input is not exactly 6 ASCII digits, yet
the Cylinder Finder page does not surface the invalid-PIN result for it —
it runs no query at all (`if pin_input:` skips everything). -/
theorem cylinderFinder_empty_not_invalid :
    ¬ (("" : String).length = 6 ∧ pyIsDigit "" = true) ∧
    cylinderFinder [] "" [] = .noQuery ∧
    FinderOutcome.noQuery ≠ FinderOutcome.invalidPin := by decide

/-- C7 (amended): for an input that is non-empty after stripping, the page
surfaces the invalid-PIN warning exactly when the stripped input is not 6
digits; and for a valid 6-digit input it returns precisely the rows whose
`Location_PIN` is exactly the stripped input (restricted by status only
when a status selection is present).  An input that is empty after
stripping runs no query and surfaces no validation result. -/
theorem cylinderFinder_pin_validation (df : List CylinderRecord)
    (rawPin : String) (sel : List String) :
    (pyStrip rawPin ≠ "" →
      ¬ ((pyStrip rawPin).length = 6 ∧ pyIsDigit (pyStrip rawPin) = true) →
      cylinderFinder df rawPin sel = .invalidPin) ∧
    ((pyStrip rawPin).length = 6 → pyIsDigit (pyStrip rawPin) = true →
      ∃ rows, cylinderFinder df rawPin sel = .results rows ∧
        ∀ r, r ∈ rows ↔ r ∈ df ∧ r.Location_PIN = pyStrip rawPin ∧
          (sel.isEmpty = true ∨ sel.contains r.Status = true)) := by
  constructor
  · intro hne hbad
    simp only [cylinderFinder]
    rw [if_neg hne, if_neg hbad]
  · intro hLen hDig
    have hne : pyStrip rawPin ≠ "" := by
      intro h
      rw [h] at hLen
      exact absurd hLen (by decide)
    have heq : cylinderFinder df rawPin sel =
        .results (if sel.isEmpty then
            df.filter (fun r => r.Location_PIN = pyStrip rawPin)
          else
            (df.filter (fun r => r.Location_PIN = pyStrip rawPin)).filter
              (fun r => sel.contains r.Status)) := by
      simp only [cylinderFinder]
      rw [if_neg hne, if_pos ⟨hLen, hDig⟩]
    cases hsel : sel.isEmpty with
    | false =>
      simp only [hsel, Bool.false_eq_true, if_false] at heq
      refine ⟨_, heq, ?_⟩
      intro r
      simp only [List.mem_filter, List.contains_iff_exists_mem_beq, hsel,
        Bool.false_eq_true, false_or, decide_eq_true_eq]
      constructor
      · rintro ⟨⟨hdf, hpin⟩, hst⟩
        exact ⟨hdf, hpin, by simpa using hst⟩
      · rintro ⟨hdf, hpin, hst⟩
        exact ⟨⟨hdf, hpin⟩, by simpa using hst⟩
    | true =>
      simp only [hsel, if_true] at heq
      refine ⟨_, heq, ?_⟩
      intro r
      simp [List.mem_filter, hsel]

/-- C7 witness: the spec's own 5-digit example `"50033"` surfaces the
invalid-PIN result. -/
theorem cylinderFinder_pin_validation_witness :
    cylinderFinder [leoRecord] "50033" [] = .invalidPin :=
  (cylinderFinder_pin_validation [leoRecord] "50033" []).1 (by decide) (by decide)

/-! ## C2 -/

/-- C2 counterexample: loading a row whose stored `Overdue` is `false` but
whose `Next_Test_Due` (day 0) is before the current time (day 100) yields a
record with `Overdue = false`, even though `Next_Test_Due < now` holds —
`load_data` uses the stored flag verbatim instead of recomputing it. -/
theorem load_data_overdue_not_recomputed :
    ((load_data (.ok [rawBase])).1.map fun c => (c.Next_Test_Due, c.Overdue))
      = [(some 0, false)] ∧ computeOverdue 0 100 = true := by decide

/-- C2 (amended): `load_data` does not recompute `Overdue` at all — every
loaded record's `Overdue` equals the stored source value verbatim.  (The
`Overdue = next_test < now` computation happens only when the Add New
Cylinder page builds a fresh row.) -/
theorem load_data_overdue_verbatim (rows : List RawRecord) (i : Nat)
    (r : RawRecord) (h : rows[i]? = some r) :
    ∃ c, (load_data (.ok rows)).1[i]? = some c ∧ c.Overdue = r.Overdue :=
  ⟨cleanRecord r, by simp [load_data, h], rfl⟩

/-- C2 witness: the verbatim pass-through at a concrete one-row table. -/
theorem load_data_overdue_verbatim_witness :
    ∃ c, (load_data (.ok [rawBase])).1[0]? = some c ∧
      c.Overdue = rawBase.Overdue :=
  load_data_overdue_verbatim [rawBase] 0 rawBase (by decide)

/-! ## C9 -/

/-- C9 counterexample: a `Location_PIN` read from a numeric-typed source as
the float `500033.0` is normalized to the 8-character text `"500033.0"`,
not to `"500033"` — the decimal-formatting artifact is kept, and the
result is not 6 characters long. -/
theorem locationPin_float_artifact_kept :
    (cleanRecord { rawBase with Location_PIN := .ofFloat 500033 "0" }).Location_PIN
        = "500033.0" ∧
    ("500033.0" : String) ≠ "500033" ∧
    ("500033.0" : String).length ≠ 6 := by decide

/-- C9 (amended): `load_data` normalizes `Location_PIN` only by string
conversion and whitespace-stripping: a text-typed source cell yields its
stripped text; a float-typed source cell `500033.0` yields `"500033.0"`
(the decimal artifact is not removed); and a numeric source `012345`, read
as the integer 12345, yields the 5-character `"12345"` (the leading zero is
not restored). -/
theorem locationPin_strip_only (r : RawRecord) (s : String)
    (h : r.Location_PIN = .ofStr s) :
    (cleanRecord r).Location_PIN = pyStrip s ∧
    (cleanRecord { rawBase with Location_PIN := .ofFloat 500033 "0" }).Location_PIN
        = "500033.0" ∧
    (cleanRecord { rawBase with Location_PIN := .ofInt 12345 }).Location_PIN
        = "12345" := by
  refine ⟨?_, by decide, by decide⟩
  simp [cleanRecord, h, pyStr]

/-- C9 witness: a text cell `" 500033 "` comes out stripped to
`"500033"`. -/
theorem locationPin_strip_only_witness :
    (cleanRecord { rawBase with Location_PIN := .ofStr " 500033 " }).Location_PIN
        = pyStrip " 500033 " ∧
    (cleanRecord { rawBase with Location_PIN := .ofFloat 500033 "0" }).Location_PIN
        = "500033.0" ∧
    (cleanRecord { rawBase with Location_PIN := .ofInt 12345 }).Location_PIN
        = "12345" :=
  locationPin_strip_only { rawBase with Location_PIN := .ofStr " 500033 " }
    " 500033 " rfl

/-! ## C1 -/

/-- C1 counterexample: starting from a fresh state holding one record with
`Fill_Percent = 40`, a first load fills the cache; a confirmed refill to
100 then mutates the table and writes it to the store, but the next load
still returns the cached pre-mutation table, which no longer matches the
store.  The cache is never invalidated. -/
theorem refill_cache_stale :
    (cachedLoadData (confirmRefill
        (cachedLoadData ⟨[leoRecord], none⟩).2 "LEO-1" 100 500)).1
      = [leoRecord] ∧
    (confirmRefill (cachedLoadData ⟨[leoRecord], none⟩).2 "LEO-1" 100 500).csvStore
      ≠ [leoRecord] := by decide

/-- C1 (amended): no mutation invalidates the `st.cache_data` memo — after
a confirmed refill the next `load_data()` call returns exactly the cached
pre-mutation table, whatever the mutation wrote to the store. -/
theorem cachedLoad_after_refill_stale (s : AppState) (cid : String)
    (newFill : Nat) (now : Int) (t : List CylinderRecord)
    (h : s.cache = some t) :
    (cachedLoadData (confirmRefill s cid newFill now)).1 = t := by
  simp [confirmRefill, cachedLoadData, h]

/-- C1 witness: the stale read at a concrete cached state. -/
theorem cachedLoad_after_refill_stale_witness :
    (cachedLoadData (confirmRefill ⟨[leoRecord], some [leoRecord]⟩
        "LEO-1" 100 500)).1 = [leoRecord] :=
  cachedLoad_after_refill_stale ⟨[leoRecord], some [leoRecord]⟩ "LEO-1" 100 500
    [leoRecord] rfl
